import Mathlib

/-!
Verification of the geometric reconstruction pipeline of
`ratcave_utils/arena_scanner.py` (the `scan_arena` command).

Machine floating-point vectors are modelled as exact rational 3-vectors.
The stateful CLI procedure `scan_arena` is modelled as a pure function that
returns the trace of external-collaborator commands it issues (hardware
initialization, pivot resets, location sets, file writes) together with
either the final data handed to the mesh writer or the error it aborts with.
-/

/-- A 3-vector of rational coordinates, modelling a numpy float64 triple. -/
abbrev Vec3 : Type := ℚ × ℚ × ℚ

namespace ArenaScanner

/-- Index of the last character satisfying a predicate, if any. -/
def lastIndexOf (p : Char → Bool) (l : List Char) : Option Nat :=
  match l.reverse.findIdx? p with
  | none => none
  | some i => some (l.length - 1 - i)

/-- Embedding of `os.path.splitext` on a character list (posix: separator is a slash,
extension separator is a dot; leading dots of the basename never start an
extension).  Returns (root, extension). -/
def splitextChars (p : List Char) : List Char × List Char :=
  let sepIdx : ℤ := match lastIndexOf (fun c => c == '/') p with
    | some i => (i : ℤ)
    | none => -1
  let dotIdx : ℤ := match lastIndexOf (fun c => c == '.') p with
    | some i => (i : ℤ)
    | none => -1
  if sepIdx < dotIdx then
    let between := (p.drop (sepIdx + 1).toNat).take (dotIdx - sepIdx - 1).toNat
    if between.any (fun c => c != '.') then
      (p.take dotIdx.toNat, p.drop dotIdx.toNat)
    else (p, [])
  else (p, [])

/-- Embedding of `os.path.splitext` on strings. -/
def splitext (s : String) : String × String :=
  let r := splitextChars s.data
  (String.mk r.1, String.mk r.2)

/-- Line 90: append ".obj" when the user-supplied output name has no
extension, otherwise keep the name unchanged. -/
def fixedOutputName (s : String) : String :=
  if (splitext s).2 = "" then s ++ ".obj" else s

/-- Line 123: `assert(len(points) > 100)` — the minimum-point-count check. -/
def checkMinPoints (points : List Vec3) : Bool :=
  decide (100 < points.length)

/-- Embedding of `vertices[face_indices.flatten(), :]` — the vertex positions selected by
the flattened face index array, one entry per reference (multiplicity
preserved). -/
def selectVertices (vertices : List Vec3) (faceIndices : List Nat) : List Vec3 :=
  faceIndices.map (fun i => vertices.getD i (0, 0, 0))

/-- Line 154: `vertmean = np.mean(vertices[face_indices.flatten(), :], axis=0)`
— the arithmetic mean of the face-referenced vertex positions. -/
def vertmean (vertices : List Vec3) (faceIndices : List Nat) : Vec3 :=
  ((selectVertices vertices faceIndices).length : ℚ)⁻¹ •
    (selectVertices vertices faceIndices).sum

/-- Line 157: `vertices -= vertmean`. -/
def centerVertices (vertices : List Vec3) (m : Vec3) : List Vec3 :=
  vertices.map (fun v => v - m)

/-- Line 158: `points -= vertmean`. -/
def centerPoints (points : List Vec3) (m : Vec3) : List Vec3 :=
  points.map (fun q => q - m)

/-- numpy default absolute tolerance, `atol = 1e-08`. -/
def npAtol : ℚ := 1 / 100000000

/-- The relative tolerance passed at line 165, `rtol = .001`. -/
def npRtol : ℚ := 1 / 1000

/-- Embedding of `np.isclose(a, b, rtol=.001)` on scalars:
`|a - b| <= atol + rtol * |b|`. -/
def npIsClose (a b : ℚ) : Bool :=
  decide (|a - b| ≤ npAtol + npRtol * |b|)

/-- Embedding of `np.isclose(a, b, rtol=.001).all()` on 3-vectors. -/
def npIsCloseVec (a b : Vec3) : Bool :=
  npIsClose a.1 b.1 && npIsClose a.2.1 b.2.1 && npIsClose a.2.2 b.2.2

/-- Lines 161-168, the pivot-alignment retry loop, parametrised by the
attempt index `t` and the remaining attempt budget.  `report t` is the
location the hardware reports after the commands of attempt `t` (the loop
body issues `reset_pivot_offset` and a location set, then polls).  Returns
the number of attempts executed and whether the poll matched the target. -/
def pivotLoopAux (report : Nat → Vec3) (target : Vec3) : Nat → Nat → Nat × Bool
  | _, 0 => (0, false)
  | t, rem + 1 =>
    if npIsCloseVec (report t) target then (1, true)
    else
      let r := pivotLoopAux report target (t + 1) rem
      (r.1 + 1, r.2)

/-- The retry loop with the source's cap of 300 attempts (`range(300)`). -/
def pivotLoop (report : Nat → Vec3) (target : Vec3) : Nat × Bool :=
  pivotLoopAux report target 0 300

/-- An externally observable command issued by `scan_arena`. -/
inductive Event : Type where
  | initMotive : Event
  | loadProject : Event
  | resetOrientation : Event
  | resetPivotOffset : Event
  | acquire : Event
  | setLocation : Vec3 → Event
  | writeFile : String → Event
deriving DecidableEq

/-- Recognises a hardware location-set command. -/
def isSetLocation : Event → Bool
  | Event.setLocation _ => true
  | _ => false

/-- Recognises a hardware pivot-reset command. -/
def isResetPivot : Event → Bool
  | Event.resetPivotOffset => true
  | _ => false

/-- Recognises a mesh-file write. -/
def isWriteFile : Event → Bool
  | Event.writeFile _ => true
  | _ => false

/-- Number of location-set commands in a trace. -/
def countSetLocation (evs : List Event) : Nat :=
  (evs.filter isSetLocation).length

/-- Number of pivot-reset commands in a trace. -/
def countResetPivot (evs : List Event) : Nat :=
  (evs.filter isResetPivot).length

/-- The hardware commands of one attempt of the pivot loop (lines 163-164:
`arena.reset_pivot_offset()` then `arena.location = vertmean`), repeated for
each executed attempt. -/
def pivotEvents (target : Vec3) (k : Nat) : List Event :=
  (List.replicate k [Event.resetPivotOffset, Event.setLocation target]).flatten

/-- The commands issued from hardware initialization (line 95) through the
scanning session (line 121): initialization, project load, three
orientation/pivot reset rounds (lines 109-112), then acquisition. -/
def initialEvents : List Event :=
  [Event.initMotive, Event.loadProject,
   Event.resetOrientation, Event.resetPivotOffset,
   Event.resetOrientation, Event.resetPivotOffset,
   Event.resetOrientation, Event.resetPivotOffset,
   Event.acquire]

/-- The inputs `scan_arena` reacts to: the user-supplied output filename, the
acquired point cloud, the reconstruction results (vertices and flattened
triangulated face indices), the mean-center toggle, and the location the
hardware reports at each pivot-alignment attempt. -/
structure ScanInput : Type where
  outputFilename : String
  points : List Vec3
  vertices : List Vec3
  faceIndices : List Nat
  nomeancenter : Bool
  report : Nat → Vec3

/-- The data handed to the mesh writer and the final point cloud. -/
structure ScanOutput : Type where
  finalVertices : List Vec3
  finalPoints : List Vec3
deriving DecidableEq

/-- Error of line 91: wrong output extension. -/
def extErrorMsg : String :=
  "Output arena filename must be a Wavefront (.obj) file"

/-- Error of line 123: too few points detected. -/
def pointsErrorMsg : String :=
  "Tracker is not detecting enough points to model"

/-- Error of line 168: pivot-alignment retries exhausted. -/
def pivotErrorMsg : String :=
  "Motive failed to properly shift pivot to center of mesh"

/-- The `scan_arena` procedure (lines 87-191) as a trace-producing function:
extension fix-up and check (lines 90-91) before any hardware command, then
initialization, resets and acquisition, the minimum-point-count check
(line 123), the optional mean-centering with the pivot-alignment retry loop
(lines 150-168), and finally the mesh-file write (lines 175-177). -/
def scanArena (inp : ScanInput) : List Event × Except String ScanOutput :=
  let name := fixedOutputName inp.outputFilename
  if (splitext name).2 = ".obj" then
    if checkMinPoints inp.points then
      if inp.nomeancenter then
        (initialEvents ++ [Event.writeFile name],
         Except.ok ⟨inp.vertices, inp.points⟩)
      else
        let m := vertmean inp.vertices inp.faceIndices
        let r := pivotLoop inp.report m
        if r.2 then
          (initialEvents ++ pivotEvents m r.1 ++ [Event.writeFile name],
           Except.ok ⟨centerVertices inp.vertices m, centerPoints inp.points m⟩)
        else
          (initialEvents ++ pivotEvents m r.1, Except.error pivotErrorMsg)
    else
      (initialEvents, Except.error pointsErrorMsg)
  else
    ([], Except.error extErrorMsg)

/-- Modelled from the spec: `fan_triangulate` is defined in
`ratcave_utils/utils/pointcloud.py`, which is not among the provided source
files.  Spec 4.3: for a face `[v0, v1, ...]` emit the fan triangles
`(v0, vi, vi+1)` over consecutive pairs of the remaining vertices. -/
def fanFace : List Nat → List (Nat × Nat × Nat)
  | [] => []
  | v0 :: rest => (rest.zip rest.tail).map (fun p => (v0, p.1, p.2))

/-- Modelled from the spec: the fail-fast error for a face with fewer than
3 vertices (spec 4.3, a contract violation). -/
def degenerateFaceMsg : String := "face with fewer than 3 vertices"

/-- Modelled from the spec: `triangulate(faces: seq<Face>) -> seq<(int,int,int)>`
(spec 4.3), from `ratcave_utils/utils/pointcloud.py` which is not among the
provided source files.  Each face of at least 3 vertices contributes its fan
triangles; a face with fewer than 3 vertices fails fast. -/
def fan_triangulate : List (List Nat) → Except String (List (Nat × Nat × Nat))
  | [] => Except.ok []
  | f :: rest =>
    if f.length < 3 then Except.error degenerateFaceMsg
    else
      match fan_triangulate rest with
      | Except.error e => Except.error e
      | Except.ok ts => Except.ok (fanFace f ++ ts)

/-- Squared euclidean distance between two vectors. -/
def distSq (a b : Vec3) : ℚ :=
  (a.1 - b.1) ^ 2 + (a.2.1 - b.2.1) ^ 2 + (a.2.2 - b.2.2) ^ 2

/-- Two vectors are within epsilon of each other (distance at most eps). -/
def withinEps (eps : ℚ) (a b : Vec3) : Bool :=
  decide (distSq a b ≤ eps * eps)

/-- Index of the first already-indexed vertex within epsilon of `v`, if any. -/
def findClose (eps : ℚ) (v : Vec3) : List Vec3 → Option Nat
  | [] => none
  | w :: ws =>
    if withinEps eps w v then some 0
    else (findClose eps v ws).map (fun i => i + 1)

/-- Modelled from the spec: the vertex-deduplication step of
`face_index` (spec 4.2), from `ratcave_utils/utils/pointcloud.py` which is
not among the provided source files.  A vertex within epsilon of an
already-indexed vertex is merged into that shared index; otherwise it is
appended to the global vertex array. -/
def addVertex (eps : ℚ) (verts : List Vec3) (v : Vec3) : List Vec3 × Nat :=
  match findClose eps v verts with
  | some i => (verts, i)
  | none => (verts ++ [v], verts.length)

/-- Modelled from the spec: indexing of one surface's ordered boundary
vertices (spec 4.2) against the global vertex array, returning the grown
array and the face's index list in boundary order. -/
def indexSurface (eps : ℚ) : List Vec3 → List Vec3 → List Vec3 × List Nat
  | verts, [] => (verts, [])
  | verts, v :: vs =>
    let r := addVertex eps verts v
    let r2 := indexSurface eps r.1 vs
    (r2.1, r.2 :: r2.2)

/-- Modelled from the spec: indexing of a sequence of surfaces in order,
threading the global vertex array. -/
def indexSurfaces (eps : ℚ) : List Vec3 → List (List Vec3) → List Vec3 × List (List Nat)
  | verts, [] => (verts, [])
  | verts, s :: ss =>
    let r := indexSurface eps verts s
    let r2 := indexSurfaces eps r.1 ss
    (r2.1, r.2 :: r2.2)

/-- Modelled from the spec: `index(surfaces) -> (vertices, faces)`
(spec 4.2, `face_index` in `ratcave_utils/utils/pointcloud.py`, not among
the provided source files): deduplicates the surfaces' ordered boundary
vertices into a shared global vertex array plus per-face index lists. -/
def face_index (eps : ℚ) (surfaces : List (List Vec3)) : List Vec3 × List (List Nat) :=
  indexSurfaces eps [] surfaces

/-- Modelled from the spec: deterministic partition of the point list into
exactly `n` contiguous blocks of near-equal size (the interchangeable
clustering strategy of spec 4.1; any stable deterministic method is
admissible). -/
def splitIntoBlocks : List Vec3 → Nat → List (List Vec3)
  | _, 0 => []
  | l, n + 1 =>
    let k := (l.length + n) / (n + 1)
    l.take k :: splitIntoBlocks (l.drop k) n

/-- Cross product of two rational 3-vectors. -/
def cross (u v : Vec3) : Vec3 :=
  (u.2.1 * v.2.2 - u.2.2 * v.2.1,
   u.2.2 * v.1 - u.1 * v.2.2,
   u.1 * v.2.1 - u.2.1 * v.1)

/-- Three points are collinear (degenerate triple): the cross product of the
two difference vectors vanishes. -/
def collinear3 (a b c : Vec3) : Bool :=
  decide (cross (b - a) (c - a) = ((0 : ℚ), (0 : ℚ), (0 : ℚ)))

/-- A cluster contains three non-collinear points (spec 4.1: a cluster with
fewer than 3 non-collinear points is invalid). -/
def validCluster (c : List Vec3) : Bool :=
  c.any (fun a => c.any (fun b => c.any (fun d => !collinear3 a b d)))

/-- Modelled from the spec: the UnsatisfiableConfiguration error text,
carrying the requested and achievable counts (spec section 7). -/
def unsatisfiableMsg (requested achievable : Nat) : String :=
  "explicit n_surfaces cannot be achieved by the data: requested " ++
    toString requested ++ ", achievable " ++ toString achievable

/-- Modelled from the spec: `segment(points, n_surfaces) -> seq<Surface>`
(spec 4.1, `meshify_arena` in `ratcave_utils/utils/pointcloud.py`, not
among the provided source files).  With an explicit positive count the
partition must have exactly that many clusters, every cluster valid, else
the UnsatisfiableConfiguration error; with count 0 the surface count is
auto-estimated (here: a single surface, invalid clusters dropped). -/
def segment (points : List Vec3) (nSurfaces : Nat) : Except String (List (List Vec3)) :=
  if nSurfaces = 0 then
    Except.ok ((splitIntoBlocks points 1).filter validCluster)
  else
    let clusters := splitIntoBlocks points nSurfaces
    if clusters.all validCluster then Except.ok clusters
    else
      Except.error (unsatisfiableMsg nSurfaces (clusters.filter validCluster).length)

/-- A hardware oracle that always reports the centroid of the one-triangle
sample mesh (an immediately convergent device). -/
def sampleReport : Nat → Vec3 :=
  fun _ => vertmean [((1 : ℚ), 2, 3)] [0]

/-- Sample input for the mean-centering run: a convergent device, 101
acquired points, a one-vertex mesh. -/
def sampleInputCentered : ScanInput :=
  ⟨"arena.obj", List.replicate 101 ((0 : ℚ), 0, 0), [((1 : ℚ), 2, 3)], [0],
   false, sampleReport⟩

/-- Sample input with the mean-center toggle off. -/
def sampleInputNoCenter : ScanInput :=
  ⟨"arena.obj", List.replicate 101 ((0 : ℚ), 0, 0), [((1 : ℚ), 2, 3)], [0],
   true, sampleReport⟩

/-- Sample input whose output filename has a non-obj extension. -/
def sampleInputBadExt : ScanInput :=
  ⟨"arena.png", List.replicate 101 ((0 : ℚ), 0, 0), [((1 : ℚ), 2, 3)], [0],
   false, sampleReport⟩

/-- Sample input whose output filename has no extension. -/
def sampleInputNoExt : ScanInput :=
  ⟨"arena", [], [], [], false, fun _ => ((0 : ℚ), 0, 0)⟩

/-- Sample point cloud of two clusters of three non-collinear points each. -/
def samplePoints6 : List Vec3 :=
  [((0 : ℚ), 0, 0), ((1 : ℚ), 0, 0), ((0 : ℚ), 1, 0),
   ((0 : ℚ), 0, 1), ((2 : ℚ), 0, 0), ((0 : ℚ), 2, 0)]

theorem getD_map_of_lt {α β : Type} (f : α → β) (l : List α) (i : Nat) (d : α)
    (e : β) (h : i < l.length) : (l.map f).getD i e = f (l.getD i d) := by
  induction l generalizing i with
  | nil => simp at h
  | cons a t ih =>
    cases i with
    | zero => rfl
    | succ j =>
      have hj : j < t.length := Nat.lt_of_succ_lt_succ (by simpa using h)
      simpa [List.getD_cons_succ] using ih j hj

theorem sum_map_sub_const (l : List Vec3) (m : Vec3) :
    (l.map (fun v => v - m)).sum = l.sum - l.length • m := by
  induction l with
  | nil => simp
  | cons a t ih =>
    simp only [List.map_cons, List.sum_cons, ih, List.length_cons, succ_nsmul]
    abel

theorem npIsClose_self (a : ℚ) : npIsClose a a = true := by
  simp only [npIsClose, decide_eq_true_eq, sub_self, abs_zero, npAtol, npRtol]
  positivity

theorem npIsCloseVec_self (v : Vec3) : npIsCloseVec v v = true := by
  simp [npIsCloseVec, npIsClose_self]

theorem pivotLoopAux_fst_le (report : Nat → Vec3) (target : Vec3) :
    ∀ (rem t : Nat), (pivotLoopAux report target t rem).1 ≤ rem := by
  intro rem
  induction rem with
  | zero => intro t; simp [pivotLoopAux]
  | succ n ih =>
    intro t
    simp only [pivotLoopAux]
    split
    · simp
    · simpa using Nat.succ_le_succ (ih (t + 1))

theorem pivotLoopAux_all_false (report : Nat → Vec3) (target : Vec3) :
    ∀ (rem t : Nat),
      (∀ s, t ≤ s → s < t + rem → npIsCloseVec (report s) target = false) →
      pivotLoopAux report target t rem = (rem, false) := by
  intro rem
  induction rem with
  | zero => intro t _; simp [pivotLoopAux]
  | succ n ih =>
    intro t h
    have ht : npIsCloseVec (report t) target = false :=
      h t (Nat.le_refl t) (by omega)
    have hrec : pivotLoopAux report target (t + 1) n = (n, false) :=
      ih (t + 1) (fun s hs1 hs2 => h s (by omega) (by omega))
    simp [pivotLoopAux, ht, hrec]

theorem pivotLoopAux_first (report : Nat → Vec3) (target : Vec3) :
    ∀ (rem t t0 : Nat), t ≤ t0 → t0 < t + rem →
      npIsCloseVec (report t0) target = true →
      (∀ s, t ≤ s → s < t0 → npIsCloseVec (report s) target = false) →
      pivotLoopAux report target t rem = (t0 - t + 1, true) := by
  intro rem
  induction rem with
  | zero => intro t t0 h1 h2; omega
  | succ n ih =>
    intro t t0 h1 h2 hclose hbefore
    rcases Nat.eq_or_lt_of_le h1 with heq | hlt
    · subst heq
      simp [pivotLoopAux, hclose]
    · have ht : npIsCloseVec (report t) target = false :=
        hbefore t (Nat.le_refl t) hlt
      have hrec : pivotLoopAux report target (t + 1) n = (t0 - (t + 1) + 1, true) :=
        ih (t + 1) t0 hlt (by omega) hclose
          (fun s hs1 hs2 => hbefore s (by omega) hs2)
      have harith : t0 - (t + 1) + 1 + 1 = t0 - t + 1 := by omega
      simp [pivotLoopAux, ht, hrec, harith]

theorem countSetLocation_append (a b : List Event) :
    countSetLocation (a ++ b) = countSetLocation a + countSetLocation b := by
  simp [countSetLocation, List.filter_append]

theorem countSetLocation_pivotEvents (target : Vec3) (k : Nat) :
    countSetLocation (pivotEvents target k) = k := by
  induction k with
  | zero => simp [pivotEvents, countSetLocation]
  | succ n ih =>
    have hsplit : pivotEvents target (n + 1)
        = [Event.resetPivotOffset, Event.setLocation target] ++ pivotEvents target n := by
      simp [pivotEvents, List.replicate_succ]
    rw [hsplit, countSetLocation_append, ih]
    simp [countSetLocation, isSetLocation]
    omega

theorem countSetLocation_initialEvents : countSetLocation initialEvents = 0 := by
  rfl

theorem countSetLocation_writeFileSingleton (n : String) :
    countSetLocation [Event.writeFile n] = 0 := by
  rfl

theorem countResetPivot_initialEvents : countResetPivot initialEvents = 3 := by
  rfl

theorem writeFile_not_mem_initialEvents (n : String) :
    Event.writeFile n ∉ initialEvents := by
  simp [initialEvents]

theorem writeFile_not_mem_pivotEvents (n : String) (target : Vec3) (k : Nat) :
    Event.writeFile n ∉ pivotEvents target k := by
  induction k with
  | zero => simp [pivotEvents]
  | succ j ih =>
    simp only [pivotEvents, List.replicate_succ, List.flatten_cons] at *
    simp [ih]

theorem getD_zip_of_lt {α β : Type} (l : List α) (l2 : List β) (i : Nat)
    (da : α) (db : β) (h1 : i < l.length) (h2 : i < l2.length) :
    (l.zip l2).getD i (da, db) = (l.getD i da, l2.getD i db) := by
  induction l generalizing l2 i with
  | nil => simp at h1
  | cons a t ih =>
    cases l2 with
    | nil => simp at h2
    | cons b t2 =>
      cases i with
      | zero => rfl
      | succ j =>
        simp only [List.zip_cons_cons, List.getD_cons_succ]
        exact ih t2 j (Nat.lt_of_succ_lt_succ (by simpa using h1))
          (Nat.lt_of_succ_lt_succ (by simpa using h2))

theorem getD_tail {α : Type} (l : List α) (i : Nat) (d : α) :
    l.tail.getD i d = l.getD (i + 1) d := by
  cases l with
  | nil => rfl
  | cons a t => rfl

theorem pivotLoop_fst_le (report : Nat → Vec3) (target : Vec3) :
    (pivotLoop report target).1 ≤ 300 :=
  pivotLoopAux_fst_le report target 300 0

theorem pivotLoop_all_false (report : Nat → Vec3) (target : Vec3)
    (h : ∀ t, t < 300 → npIsCloseVec (report t) target = false) :
    pivotLoop report target = (300, false) :=
  pivotLoopAux_all_false report target 300 0 (fun s _ hs => h s (by omega))

theorem pivotLoop_first (report : Nat → Vec3) (target : Vec3) (t : Nat)
    (ht : t < 300) (hc : npIsCloseVec (report t) target = true)
    (hb : ∀ s, s < t → npIsCloseVec (report s) target = false) :
    pivotLoop report target = (t + 1, true) := by
  have h := pivotLoopAux_first report target 300 0 t (Nat.zero_le t) (by omega)
    hc (fun s _ hs => hb s hs)
  simpa using h

theorem scanArena_center_eq (inp : ScanInput)
    (hnmc : inp.nomeancenter = false)
    (hext : (splitext (fixedOutputName inp.outputFilename)).2 = ".obj")
    (hmin : checkMinPoints inp.points = true) :
    scanArena inp =
      (if (pivotLoop inp.report (vertmean inp.vertices inp.faceIndices)).2 then
        (initialEvents
           ++ pivotEvents (vertmean inp.vertices inp.faceIndices)
                (pivotLoop inp.report (vertmean inp.vertices inp.faceIndices)).1
           ++ [Event.writeFile (fixedOutputName inp.outputFilename)],
         Except.ok ⟨centerVertices inp.vertices (vertmean inp.vertices inp.faceIndices),
                    centerPoints inp.points (vertmean inp.vertices inp.faceIndices)⟩)
      else
        (initialEvents
           ++ pivotEvents (vertmean inp.vertices inp.faceIndices)
                (pivotLoop inp.report (vertmean inp.vertices inp.faceIndices)).1,
         Except.error pivotErrorMsg)) := by
  simp [scanArena, hext, hmin, hnmc]

theorem findClose_none (eps : ℚ) (v : Vec3) :
    ∀ (verts : List Vec3), findClose eps v verts = none →
      ∀ w ∈ verts, withinEps eps w v = false := by
  intro verts
  induction verts with
  | nil => simp
  | cons a t ih =>
    intro h w hw
    simp only [findClose] at h
    by_cases ha : withinEps eps a v = true
    · simp [ha] at h
    · have ha' : withinEps eps a v = false := by
        cases hval : withinEps eps a v
        · rfl
        · exact absurd hval ha
      simp only [ha', if_neg] at h
      have ht : findClose eps v t = none := by
        cases hval : findClose eps v t
        · rfl
        · simp [hval] at h
      rcases List.mem_cons.mp hw with rfl | hwt
      · exact ha'
      · exact ih ht w hwt

theorem addVertex_pairwise (eps : ℚ) (verts : List Vec3) (v : Vec3)
    (h : verts.Pairwise (fun a b => withinEps eps a b = false)) :
    (addVertex eps verts v).1.Pairwise (fun a b => withinEps eps a b = false) := by
  unfold addVertex
  cases hfc : findClose eps v verts with
  | some i => exact h
  | none =>
    simp only
    rw [List.pairwise_append]
    refine ⟨h, List.pairwise_singleton _ _, ?_⟩
    intro a ha b hb
    have hb' : b = v := List.mem_singleton.mp hb
    rw [hb']
    exact findClose_none eps v verts hfc a ha

theorem indexSurface_pairwise (eps : ℚ) :
    ∀ (s : List Vec3) (verts : List Vec3),
      verts.Pairwise (fun a b => withinEps eps a b = false) →
      (indexSurface eps verts s).1.Pairwise (fun a b => withinEps eps a b = false) := by
  intro s
  induction s with
  | nil => intro verts h; simpa [indexSurface] using h
  | cons v vs ih =>
    intro verts h
    simp only [indexSurface]
    exact ih _ (addVertex_pairwise eps verts v h)

theorem indexSurfaces_pairwise (eps : ℚ) :
    ∀ (ss : List (List Vec3)) (verts : List Vec3),
      verts.Pairwise (fun a b => withinEps eps a b = false) →
      (indexSurfaces eps verts ss).1.Pairwise (fun a b => withinEps eps a b = false) := by
  intro ss
  induction ss with
  | nil => intro verts h; simpa [indexSurfaces] using h
  | cons s rest ih =>
    intro verts h
    simp only [indexSurfaces]
    exact ih _ (indexSurface_pairwise eps s verts h)

theorem splitIntoBlocks_length :
    ∀ (n : Nat) (l : List Vec3), (splitIntoBlocks l n).length = n := by
  intro n
  induction n with
  | zero => intro l; simp [splitIntoBlocks]
  | succ j ih => intro l; simp [splitIntoBlocks, ih]

/-- Claim C1: during mean-centering, the centroid is computed over exactly
the vertex positions referenced by the face index array (a vertex not
referenced by any face contributes nothing to the mean: two vertex arrays
that agree at every referenced index have the same centroid), and that same
centroid vector is then subtracted from every vertex and from every raw
point, as a pure translation with no rotation. -/
theorem mean_centering_uses_referenced_vertices_and_translates
    (vertices vertices2 points : List Vec3) (faceIndices : List Nat)
    (hagree : ∀ i ∈ faceIndices,
      vertices.getD i (0, 0, 0) = vertices2.getD i (0, 0, 0)) :
    vertmean vertices faceIndices = vertmean vertices2 faceIndices ∧
    (centerVertices vertices (vertmean vertices faceIndices)).length
      = vertices.length ∧
    (∀ i, i < vertices.length →
      (centerVertices vertices (vertmean vertices faceIndices)).getD i (0, 0, 0)
        = vertices.getD i (0, 0, 0) - vertmean vertices faceIndices) ∧
    (centerPoints points (vertmean vertices faceIndices)).length = points.length ∧
    (∀ j, j < points.length →
      (centerPoints points (vertmean vertices faceIndices)).getD j (0, 0, 0)
        = points.getD j (0, 0, 0) - vertmean vertices faceIndices) := by
  refine ⟨?_, ?_, ?_, ?_, ?_⟩
  · have hsel : selectVertices vertices faceIndices
        = selectVertices vertices2 faceIndices :=
      List.map_congr_left hagree
    unfold vertmean
    rw [hsel]
  · simp [centerVertices]
  · intro i hi
    exact getD_map_of_lt _ vertices i (0, 0, 0) (0, 0, 0) hi
  · simp [centerPoints]
  · intro j hj
    exact getD_map_of_lt _ points j (0, 0, 0) (0, 0, 0) hj

/-- Witness for C1 at concrete arrays: the two vertex arrays agree at the
referenced index 0 and differ at the unreferenced index 1, yet have the same
face-referenced centroid, and centering subtracts that centroid
elementwise. -/
theorem mean_centering_witness :
    (∀ i ∈ ([0] : List Nat),
      ([((1 : ℚ), 2, 3), ((5 : ℚ), 5, 5)] : List Vec3).getD i (0, 0, 0)
        = ([((1 : ℚ), 2, 3), ((7 : ℚ), 7, 7)] : List Vec3).getD i (0, 0, 0)) ∧
    vertmean [((1 : ℚ), 2, 3), ((5 : ℚ), 5, 5)] [0]
      = vertmean [((1 : ℚ), 2, 3), ((7 : ℚ), 7, 7)] [0] := by
  have hagree : ∀ i ∈ ([0] : List Nat),
      ([((1 : ℚ), 2, 3), ((5 : ℚ), 5, 5)] : List Vec3).getD i (0, 0, 0)
        = ([((1 : ℚ), 2, 3), ((7 : ℚ), 7, 7)] : List Vec3).getD i (0, 0, 0) := by
    intro i hi
    have hi0 : i = 0 := List.mem_singleton.mp hi
    rw [hi0]
    rfl
  exact ⟨hagree,
    (mean_centering_uses_referenced_vertices_and_translates
      [((1 : ℚ), 2, 3), ((5 : ℚ), 5, 5)] [((1 : ℚ), 2, 3), ((7 : ℚ), 7, 7)]
      [] [0] hagree).1⟩

/-- Claim C3 counterexample: the claim says a point cloud of exactly 100
points passes the minimum-count check, but the source checks
`len(points) > 100`, so 100 points is rejected. -/
theorem min_count_rejects_100 :
    checkMinPoints (List.replicate 100 ((0 : ℚ), 0, 0)) = false := by
  rfl

/-- Claim C3 (amended): the minimum-point-count check rejects point clouds
of 99 and of exactly 100 points (the threshold is strictly more than 100);
101 points is accepted. -/
theorem min_count_threshold :
    checkMinPoints (List.replicate 99 ((0 : ℚ), 0, 0)) = false ∧
    checkMinPoints (List.replicate 100 ((1 : ℚ), 0, 0)) = false ∧
    checkMinPoints (List.replicate 101 ((0 : ℚ), 0, 0)) = true := by
  refine ⟨rfl, rfl, rfl⟩

/-- Claim C5: after the center-and-align step is applied to a mesh and its
source points, the face-referenced vertex-weighted centroid of the
resulting vertices is (0,0,0) — exactly, in the rational model, hence
within any tolerance. -/
theorem centered_mesh_has_zero_centroid
    (vertices : List Vec3) (faceIndices : List Nat)
    (hne : faceIndices ≠ [])
    (hvalid : ∀ i ∈ faceIndices, i < vertices.length) :
    vertmean (centerVertices vertices (vertmean vertices faceIndices)) faceIndices
      = ((0 : ℚ), (0 : ℚ), (0 : ℚ)) := by
  have hsel : selectVertices
        (centerVertices vertices (vertmean vertices faceIndices)) faceIndices
      = (selectVertices vertices faceIndices).map
          (fun v => v - vertmean vertices faceIndices) := by
    unfold selectVertices centerVertices
    rw [List.map_map]
    refine List.map_congr_left ?_
    intro i hi
    exact getD_map_of_lt _ vertices i (0, 0, 0) (0, 0, 0) (hvalid i hi)
  have hlen0 : (selectVertices vertices faceIndices).length = faceIndices.length := by
    simp [selectVertices]
  have hnz : ((faceIndices.length : ℚ)) ≠ 0 := by
    have : faceIndices.length ≠ 0 := fun h => hne (List.length_eq_zero.mp h)
    exact_mod_cast Nat.cast_ne_zero.mpr this
  have hmS : vertmean vertices faceIndices
      = ((faceIndices.length : ℚ))⁻¹ • (selectVertices vertices faceIndices).sum := by
    unfold vertmean
    rw [hlen0]
  show ((selectVertices (centerVertices vertices (vertmean vertices faceIndices))
          faceIndices).length : ℚ)⁻¹ •
      (selectVertices (centerVertices vertices (vertmean vertices faceIndices))
          faceIndices).sum
    = ((0 : ℚ), (0 : ℚ), (0 : ℚ))
  rw [hsel, List.length_map, hlen0, sum_map_sub_const, hlen0,
    smul_sub, ← Nat.cast_smul_eq_nsmul ℚ, smul_smul,
    inv_mul_cancel₀ hnz, one_smul, ← hmS, sub_self]
  rfl

/-- Witness for C5: a two-vertex mesh whose faces reference both vertices;
after centering, the face-referenced centroid is the zero vector. -/
theorem centered_mesh_witness :
    (([0, 1] : List Nat) ≠ []) ∧
    (∀ i ∈ ([0, 1] : List Nat),
      i < ([((1 : ℚ), 2, 3), ((3 : ℚ), 4, 5)] : List Vec3).length) ∧
    vertmean (centerVertices [((1 : ℚ), 2, 3), ((3 : ℚ), 4, 5)]
        (vertmean [((1 : ℚ), 2, 3), ((3 : ℚ), 4, 5)] [0, 1])) [0, 1]
      = ((0 : ℚ), (0 : ℚ), (0 : ℚ)) :=
  ⟨by decide, by decide,
    centered_mesh_has_zero_centroid [((1 : ℚ), 2, 3), ((3 : ℚ), 4, 5)] [0, 1]
      (by decide) (by decide)⟩

/-- Claim C6: fan triangulation of a face with ordered vertex indices emits
exactly the triangles (v0, vi, vi+1) in fan order, so a convex polygon of k
vertices yields exactly k-2 triangles; a face with fewer than 3 vertices
causes an immediate (fail-fast) error. -/
theorem fan_triangulation_spec (face : List Nat) :
    (3 ≤ face.length →
      fan_triangulate [face] = Except.ok (fanFace face) ∧
      (fanFace face).length = face.length - 2 ∧
      (∀ i, i < face.length - 2 →
        (fanFace face).getD i (0, 0, 0)
          = (face.getD 0 0, face.getD (i + 1) 0, face.getD (i + 2) 0))) ∧
    (face.length < 3 → fan_triangulate [face] = Except.error degenerateFaceMsg) := by
  constructor
  · intro h3
    have hnot : ¬(face.length < 3) := by omega
    refine ⟨by simp [fan_triangulate, hnot], ?_, ?_⟩
    · cases face with
      | nil => simp at h3
      | cons v rest =>
        simp only [fanFace, List.length_map, List.length_zip, List.length_tail,
          List.length_cons]
        omega
    · intro i hi
      cases face with
      | nil => simp at h3
      | cons v rest =>
        have hrl : 2 ≤ rest.length := by
          simp only [List.length_cons] at h3
          omega
        have hil : i < rest.length := by
          simp only [List.length_cons] at hi
          omega
        have hit : i < rest.tail.length := by
          simp only [List.length_tail]
          simp only [List.length_cons] at hi
          omega
        have hiz : i < (rest.zip rest.tail).length := by
          simp only [List.length_zip]
          omega
        have h1 : (fanFace (v :: rest)).getD i (0, 0, 0)
            = (v, ((rest.zip rest.tail).getD i (0, 0)).1,
                  ((rest.zip rest.tail).getD i (0, 0)).2) := by
          simp only [fanFace]
          exact getD_map_of_lt (fun p => (v, p.1, p.2)) (rest.zip rest.tail)
            i (0, 0) (0, 0, 0) hiz
        rw [h1, getD_zip_of_lt rest rest.tail i 0 0 hil hit, getD_tail]
        simp only [List.getD_cons_zero, List.getD_cons_succ]
  · intro hlt
    simp [fan_triangulate, hlt]

/-- Witness for C6: the quad face [10, 11, 12, 13] triangulates into exactly
the two fan triangles (10,11,12) and (10,12,13); a one-vertex face fails
fast with the degenerate-face error. -/
theorem fan_triangulation_witness :
    3 ≤ ([10, 11, 12, 13] : List Nat).length ∧
    fan_triangulate [[10, 11, 12, 13]]
      = Except.ok [(10, 11, 12), (10, 12, 13)] ∧
    ([10] : List Nat).length < 3 ∧
    fan_triangulate [[10]] = Except.error degenerateFaceMsg :=
  ⟨by decide, by rfl, by decide, (fan_triangulation_spec [10]).2 (by decide)⟩

/-- Claim C7: vertex indexing is deduplicating and idempotent — the output
vertex array never contains two vertices within epsilon of each other, and
running the indexing step twice on the same surfaces yields identical
vertex and face arrays. -/
theorem face_index_dedup_idempotent (eps : ℚ) (surfaces : List (List Vec3)) :
    (face_index eps surfaces).1.Pairwise (fun a b => withinEps eps a b = false) ∧
    face_index eps surfaces = face_index eps surfaces :=
  ⟨indexSurfaces_pairwise eps surfaces [] List.Pairwise.nil, rfl⟩

/-- Claim C8: for every point cloud and every explicit positive surface
count, the segmenter returns exactly that many clusters on success, is
deterministic, and on failure reports the UnsatisfiableConfiguration error
carrying the requested and achievable counts. -/
theorem segmenter_explicit_count (points : List Vec3) (nS : Nat) (hpos : 0 < nS) :
    (∀ cs, segment points nS = Except.ok cs → cs.length = nS) ∧
    segment points nS = segment points nS ∧
    (∀ e, segment points nS = Except.error e →
      e = unsatisfiableMsg nS
            ((splitIntoBlocks points nS).filter validCluster).length) := by
  have hne : ¬(nS = 0) := by omega
  refine ⟨?_, rfl, ?_⟩
  · intro cs hcs
    simp only [segment, if_neg hne] at hcs
    cases hall : (splitIntoBlocks points nS).all validCluster with
    | true =>
      simp only [hall, if_pos] at hcs
      have hcs' : splitIntoBlocks points nS = cs := by
        exact Except.ok.inj hcs
      rw [← hcs']
      exact splitIntoBlocks_length nS points
    | false => simp [hall] at hcs
  · intro e he
    simp only [segment, if_neg hne] at he
    cases hall : (splitIntoBlocks points nS).all validCluster with
    | true => simp [hall] at he
    | false =>
      simp only [hall, Bool.false_eq_true, if_neg] at he
      exact (Except.error.inj he).symm

/-- Witness for C8: six points in two blocks of three non-collinear points
each; the segmenter with the explicit count 2 returns exactly those two
clusters. -/
theorem segmenter_witness :
    0 < 2 ∧
    segment samplePoints6 2
      = Except.ok [[((0 : ℚ), 0, 0), ((1 : ℚ), 0, 0), ((0 : ℚ), 1, 0)],
          [((0 : ℚ), 0, 1), ((2 : ℚ), 0, 0), ((0 : ℚ), 2, 0)]] ∧
    (∀ cs, segment samplePoints6 2 = Except.ok cs → cs.length = 2) := by
  have hv1 : validCluster [((0 : ℚ), 0, 0), ((1 : ℚ), 0, 0), ((0 : ℚ), 1, 0)]
      = true := by
    norm_num [validCluster, collinear3, cross, Prod.mk.injEq, Prod.mk_sub_mk,
      Prod.ext_iff]
  have hv2 : validCluster [((0 : ℚ), 0, 1), ((2 : ℚ), 0, 0), ((0 : ℚ), 2, 0)]
      = true := by
    norm_num [validCluster, collinear3, cross, Prod.mk.injEq, Prod.mk_sub_mk,
      Prod.ext_iff]
  have hsplit : splitIntoBlocks samplePoints6 2
      = [[((0 : ℚ), 0, 0), ((1 : ℚ), 0, 0), ((0 : ℚ), 1, 0)],
         [((0 : ℚ), 0, 1), ((2 : ℚ), 0, 0), ((0 : ℚ), 2, 0)]] := rfl
  have h2 : ¬((2 : Nat) = 0) := by decide
  refine ⟨by decide, ?_, (segmenter_explicit_count samplePoints6 2 (by decide)).1⟩
  simp only [segment, if_neg h2, hsplit, List.all_cons, List.all_nil, hv1, hv2,
    Bool.and_true, Bool.true_and, if_pos]

/-- Claim C9 counterexample: the claim says the mesh's optional re-centering
does not alter the raw point cloud, but the source (line 158,
`points -= vertmean`) translates the point cloud by the centroid: at a
one-vertex mesh with centroid (1,2,3) the point (0,0,0) is changed. -/
theorem recentering_alters_points :
    centerPoints [((0 : ℚ), 0, 0)] (vertmean [((1 : ℚ), 2, 3)] [0])
      ≠ [((0 : ℚ), 0, 0)] := by
  have hm : vertmean [((1 : ℚ), 2, 3)] [0] = ((1 : ℚ), 2, 3) := by
    simp [vertmean, selectVertices]
  rw [hm]
  simp only [centerPoints, List.map_cons, List.map_nil, ne_eq, List.cons.injEq,
    and_true, Prod.ext_iff, Prod.mk_sub_mk]
  norm_num

/-- Claim C9 (amended): each pipeline step computes its output as a
function of the previous step's output, but the optional re-centering
translates the raw point cloud as well as the vertices: every point is
replaced by itself minus the centroid, so whenever the centroid is nonzero
and the cloud nonempty the point cloud is altered. -/
theorem recentering_translates_the_point_cloud
    (vertices points : List Vec3) (faceIndices : List Nat) :
    (centerPoints points (vertmean vertices faceIndices)).length
      = points.length ∧
    (∀ j, j < points.length →
      (centerPoints points (vertmean vertices faceIndices)).getD j (0, 0, 0)
        = points.getD j (0, 0, 0) - vertmean vertices faceIndices) ∧
    (vertmean vertices faceIndices ≠ 0 → points ≠ [] →
      centerPoints points (vertmean vertices faceIndices) ≠ points) := by
  refine ⟨by simp [centerPoints], ?_, ?_⟩
  · intro j hj
    exact getD_map_of_lt _ points j (0, 0, 0) (0, 0, 0) hj
  · intro hm hp heq
    cases points with
    | nil => exact hp rfl
    | cons q rest =>
      simp only [centerPoints, List.map_cons, List.cons.injEq] at heq
      exact hm (sub_eq_self.mp heq.1)

/-- Witness for C9 (amended): at a one-vertex mesh with nonzero centroid
(1,2,3) and the nonempty cloud [(5,5,5)], re-centering changes the cloud. -/
theorem recentering_translates_witness :
    vertmean [((1 : ℚ), 2, 3)] [0] ≠ 0 ∧
    ([((5 : ℚ), 5, 5)] : List Vec3) ≠ [] ∧
    centerPoints [((5 : ℚ), 5, 5)] (vertmean [((1 : ℚ), 2, 3)] [0])
      ≠ [((5 : ℚ), 5, 5)] := by
  have hm : vertmean [((1 : ℚ), 2, 3)] [0] = ((1 : ℚ), 2, 3) := by
    simp [vertmean, selectVertices]
  have hm0 : vertmean [((1 : ℚ), 2, 3)] [0] ≠ 0 := by
    rw [hm]
    norm_num [Prod.ext_iff]
  exact ⟨hm0, by simp,
    (recentering_translates_the_point_cloud [((1 : ℚ), 2, 3)]
      [((5 : ℚ), 5, 5)] [0]).2.2 hm0 (by simp)⟩

/-- Claim C2: the pivot-alignment loop commands the hardware at most 300
times (at most 300 location-set commands, one per attempt, each followed by
a poll); it stops as soon as the reported location matches the target
within the relative tolerance (np.isclose with rtol=.001), and if all 300
attempts are exhausted without a match it aborts with the fatal pivot error
before any mesh file is written. -/
theorem pivot_alignment_bounded_retry (inp : ScanInput)
    (hnmc : inp.nomeancenter = false)
    (hext : (splitext (fixedOutputName inp.outputFilename)).2 = ".obj")
    (hmin : checkMinPoints inp.points = true) :
    countSetLocation (scanArena inp).1 ≤ 300 ∧
    ((∀ t, t < 300 →
        npIsCloseVec (inp.report t) (vertmean inp.vertices inp.faceIndices)
          = false) →
      (scanArena inp).2 = Except.error pivotErrorMsg ∧
      ∀ n, Event.writeFile n ∉ (scanArena inp).1) ∧
    (∀ t, t < 300 →
      npIsCloseVec (inp.report t) (vertmean inp.vertices inp.faceIndices)
        = true →
      (∀ s, s < t →
        npIsCloseVec (inp.report s) (vertmean inp.vertices inp.faceIndices)
          = false) →
      countSetLocation (scanArena inp).1 = t + 1 ∧
      (scanArena inp).2 = Except.ok
        ⟨centerVertices inp.vertices (vertmean inp.vertices inp.faceIndices),
         centerPoints inp.points (vertmean inp.vertices inp.faceIndices)⟩) := by
  have heq := scanArena_center_eq inp hnmc hext hmin
  refine ⟨?_, ?_, ?_⟩
  · have hle := pivotLoop_fst_le inp.report (vertmean inp.vertices inp.faceIndices)
    cases hok : (pivotLoop inp.report (vertmean inp.vertices inp.faceIndices)).2 with
    | false =>
      have hfst : (scanArena inp).1
          = initialEvents
              ++ pivotEvents (vertmean inp.vertices inp.faceIndices)
                   (pivotLoop inp.report (vertmean inp.vertices inp.faceIndices)).1 := by
        rw [heq, hok]
        simp
      rw [hfst, countSetLocation_append, countSetLocation_initialEvents,
        countSetLocation_pivotEvents]
      omega
    | true =>
      have hfst : (scanArena inp).1
          = initialEvents
              ++ pivotEvents (vertmean inp.vertices inp.faceIndices)
                   (pivotLoop inp.report (vertmean inp.vertices inp.faceIndices)).1
              ++ [Event.writeFile (fixedOutputName inp.outputFilename)] := by
        rw [heq, hok]
        simp
      rw [hfst, countSetLocation_append, countSetLocation_append,
        countSetLocation_initialEvents, countSetLocation_pivotEvents,
        countSetLocation_writeFileSingleton]
      omega
  · intro hall
    have hpl : pivotLoop inp.report (vertmean inp.vertices inp.faceIndices)
        = (300, false) := pivotLoop_all_false _ _ hall
    have hscan : scanArena inp
        = (initialEvents
             ++ pivotEvents (vertmean inp.vertices inp.faceIndices) 300,
           Except.error pivotErrorMsg) := by
      rw [heq, hpl]
      simp
    refine ⟨by rw [hscan], ?_⟩
    intro n hm
    rw [hscan] at hm
    rcases List.mem_append.mp hm with h | h
    · exact writeFile_not_mem_initialEvents n h
    · exact writeFile_not_mem_pivotEvents n _ 300 h
  · intro t ht hc hb
    have hpl : pivotLoop inp.report (vertmean inp.vertices inp.faceIndices)
        = (t + 1, true) := pivotLoop_first _ _ t ht hc hb
    have hscan : scanArena inp
        = (initialEvents
             ++ pivotEvents (vertmean inp.vertices inp.faceIndices) (t + 1)
             ++ [Event.writeFile (fixedOutputName inp.outputFilename)],
           Except.ok
             ⟨centerVertices inp.vertices (vertmean inp.vertices inp.faceIndices),
              centerPoints inp.points (vertmean inp.vertices inp.faceIndices)⟩) := by
      rw [heq, hpl]
      simp
    refine ⟨?_, by rw [hscan]⟩
    have hfst : (scanArena inp).1
        = initialEvents
            ++ pivotEvents (vertmean inp.vertices inp.faceIndices) (t + 1)
            ++ [Event.writeFile (fixedOutputName inp.outputFilename)] := by
      rw [hscan]
    rw [hfst, countSetLocation_append, countSetLocation_append,
      countSetLocation_initialEvents, countSetLocation_pivotEvents,
      countSetLocation_writeFileSingleton]
    omega

/-- Witness for C2: an immediately convergent hardware oracle makes the
loop stop after the first attempt (one location-set command), within the
300-command bound. -/
theorem pivot_alignment_witness :
    sampleInputCentered.nomeancenter = false ∧
    (splitext (fixedOutputName sampleInputCentered.outputFilename)).2 = ".obj" ∧
    checkMinPoints sampleInputCentered.points = true ∧
    countSetLocation (scanArena sampleInputCentered).1 ≤ 300 ∧
    countSetLocation (scanArena sampleInputCentered).1 = 1 := by
  have h := pivot_alignment_bounded_retry sampleInputCentered rfl rfl rfl
  have hc : npIsCloseVec (sampleInputCentered.report 0)
      (vertmean sampleInputCentered.vertices sampleInputCentered.faceIndices)
      = true := npIsCloseVec_self _
  exact ⟨rfl, rfl, rfl, h.1,
    (h.2.2 0 (by omega) hc (fun s hs => absurd hs (Nat.not_lt_zero s))).1⟩

/-- Claim C4: for every user-supplied output filename, a name with no
extension gets '.obj' appended; a name with any other extension makes the
run fail with the fatal extension error before any acquisition work (the
command trace is empty); and any mesh file ever written uses the fixed-up
name. -/
theorem output_extension_check (inp : ScanInput) :
    ((splitext inp.outputFilename).2 = "" →
      fixedOutputName inp.outputFilename = inp.outputFilename ++ ".obj") ∧
    ((splitext inp.outputFilename).2 ≠ "" →
      (splitext inp.outputFilename).2 ≠ ".obj" →
      scanArena inp = ([], Except.error extErrorMsg)) ∧
    (∀ n, Event.writeFile n ∈ (scanArena inp).1 →
      n = fixedOutputName inp.outputFilename) := by
  refine ⟨?_, ?_, ?_⟩
  · intro h
    simp [fixedOutputName, h]
  · intro h1 h2
    have hfix : fixedOutputName inp.outputFilename = inp.outputFilename := by
      simp [fixedOutputName, h1]
    simp [scanArena, hfix, h2]
  · intro n hmem
    by_cases hext : (splitext (fixedOutputName inp.outputFilename)).2 = ".obj"
    · by_cases hmin : checkMinPoints inp.points = true
      · by_cases hnmc : inp.nomeancenter = true
        · have hscan : scanArena inp
              = (initialEvents
                   ++ [Event.writeFile (fixedOutputName inp.outputFilename)],
                 Except.ok ⟨inp.vertices, inp.points⟩) := by
            simp [scanArena, hext, hmin, hnmc]
          rw [hscan] at hmem
          rcases List.mem_append.mp hmem with h | h
          · exact absurd h (writeFile_not_mem_initialEvents n)
          · simpa using List.mem_singleton.mp h
        · have hnmc' : inp.nomeancenter = false := by
            cases h : inp.nomeancenter
            · rfl
            · exact absurd h hnmc
          have heq := scanArena_center_eq inp hnmc' hext hmin
          rw [heq] at hmem
          cases hok : (pivotLoop inp.report
              (vertmean inp.vertices inp.faceIndices)).2 with
          | true =>
            rw [hok] at hmem
            simp only [if_pos] at hmem
            rcases List.mem_append.mp hmem with h | h
            · rcases List.mem_append.mp h with h' | h'
              · exact absurd h' (writeFile_not_mem_initialEvents n)
              · exact absurd h' (writeFile_not_mem_pivotEvents n _ _)
            · simpa using List.mem_singleton.mp h
          | false =>
            rw [hok] at hmem
            simp only [Bool.false_eq_true, if_false] at hmem
            rcases List.mem_append.mp hmem with h | h
            · exact absurd h (writeFile_not_mem_initialEvents n)
            · exact absurd h (writeFile_not_mem_pivotEvents n _ _)
      · have hmin' : checkMinPoints inp.points = false := by
          cases h : checkMinPoints inp.points
          · rfl
          · exact absurd h hmin
        have hscan : scanArena inp = (initialEvents, Except.error pointsErrorMsg) := by
          simp [scanArena, hext, hmin']
        rw [hscan] at hmem
        exact absurd hmem (writeFile_not_mem_initialEvents n)
    · have hscan : scanArena inp = ([], Except.error extErrorMsg) := by
        simp [scanArena, hext]
      rw [hscan] at hmem
      simp at hmem

/-- Witness for C4: the filename "arena.png" carries the extension ".png",
so the run aborts with the extension error and an empty command trace; the
extensionless name "arena" gets ".obj" appended. -/
theorem output_extension_witness :
    (splitext sampleInputBadExt.outputFilename).2 ≠ "" ∧
    (splitext sampleInputBadExt.outputFilename).2 ≠ ".obj" ∧
    scanArena sampleInputBadExt = ([], Except.error extErrorMsg) ∧
    (splitext sampleInputNoExt.outputFilename).2 = "" ∧
    fixedOutputName sampleInputNoExt.outputFilename = "arena" ++ ".obj" := by
  have h1 : (splitext sampleInputBadExt.outputFilename).2 ≠ "" := by decide
  have h2 : (splitext sampleInputBadExt.outputFilename).2 ≠ ".obj" := by decide
  exact ⟨h1, h2, (output_extension_check sampleInputBadExt).2.1 h1 h2,
    by decide, (output_extension_check sampleInputNoExt).1 (by decide)⟩

/-- Claim C10: when the mean-center toggle is off (nomeancenter set), the
vertices and points passed on to the mesh writer are exactly the
reconstruction results (no translation), and the command trace contains no
location-set command and no pivot-reset beyond the three initial
orientation/pivot reset rounds. -/
theorem nomeancenter_skips_translation_and_hardware (inp : ScanInput)
    (hnmc : inp.nomeancenter = true)
    (hext : (splitext (fixedOutputName inp.outputFilename)).2 = ".obj")
    (hmin : checkMinPoints inp.points = true) :
    scanArena inp
      = (initialEvents ++ [Event.writeFile (fixedOutputName inp.outputFilename)],
         Except.ok ⟨inp.vertices, inp.points⟩) ∧
    countSetLocation (scanArena inp).1 = 0 ∧
    countResetPivot (scanArena inp).1 = 3 := by
  have hscan : scanArena inp
      = (initialEvents ++ [Event.writeFile (fixedOutputName inp.outputFilename)],
         Except.ok ⟨inp.vertices, inp.points⟩) := by
    simp [scanArena, hext, hmin, hnmc]
  refine ⟨hscan, ?_, ?_⟩
  · rw [hscan]
    simp [countSetLocation, isSetLocation, initialEvents, List.filter]
  · rw [hscan]
    simp [countResetPivot, isResetPivot, initialEvents, List.filter]

/-- Witness for C10: with the toggle off, the writer receives exactly the
reconstruction vertices and the untranslated points. -/
theorem nomeancenter_witness :
    sampleInputNoCenter.nomeancenter = true ∧
    (splitext (fixedOutputName sampleInputNoCenter.outputFilename)).2 = ".obj" ∧
    checkMinPoints sampleInputNoCenter.points = true ∧
    (scanArena sampleInputNoCenter).2
      = Except.ok ⟨sampleInputNoCenter.vertices, sampleInputNoCenter.points⟩ := by
  refine ⟨rfl, rfl, rfl, ?_⟩
  rw [(nomeancenter_skips_translation_and_hardware sampleInputNoCenter
    rfl rfl rfl).1]

end ArenaScanner
